import Mathlib

/-!
Verification development for the NVMe namespace frontend of the
opi-nvidia-bridge storage server (pkg/frontend/nvme_namespace.go).

The server state (the Namespaces resource registry, the Subsystems
directory and the Pagination cursor store) is embedded as association
lists with Go map semantics.  Each of the six gRPC handlers is embedded
as a pure function from the server state, the request, and an
environment record that carries the outcomes of the external
collaborators (the field-behavior / resource-name / resource-id
validators and the response of each engine RPC).  Every handler returns
the gRPC result, the post-state, and the list of engine commands it
issued.
-/

set_option maxHeartbeats 1000000

namespace Frontend

/-- The Go int32 cast: wrap an integer into the signed 32 bit range. -/
def toInt32 (n : Int) : Int := (n + 2147483648) % 4294967296 - 2147483648

/-- Go map lookup on an association list (first binding wins). -/
def mapLookup (k : String) : List (String × α) → Option α
  | [] => none
  | (k2, v) :: rest => if k = k2 then some v else mapLookup k rest

/-- Go map assignment: replace the binding of the key or append a new one. -/
def mapInsert (k : String) (v : α) : List (String × α) → List (String × α)
  | [] => [(k, v)]
  | (k2, v2) :: rest => if k = k2 then (k, v) :: rest else (k2, v2) :: mapInsert k v rest

/-- Go map deletion: drop the binding of the key. -/
def mapErase (k : String) : List (String × α) → List (String × α)
  | [] => []
  | (k2, v2) :: rest => if k = k2 then rest else (k2, v2) :: mapErase k rest

deriving instance DecidableEq for Except

/-- Protobuf ObjectKey message: a single string value. -/
structure ObjectKey where
  value : String
  deriving DecidableEq

/-- Protobuf NvmeNamespaceSpec message.  Message-typed fields are Go
pointers and therefore optional; scalar fields default to zero values. -/
structure NvmeNamespaceSpec where
  subsystemId : Option ObjectKey
  volumeId : Option ObjectKey
  hostNsid : Int
  uuid : Option ObjectKey
  nguid : String
  eui64 : Int
  deriving DecidableEq

/-- Protobuf NvmeNamespaceStatus message. -/
structure NvmeNamespaceStatus where
  pciState : Int
  pciOperState : Int
  deriving DecidableEq

/-- Protobuf NvmeNamespace message. -/
structure NvmeNamespace where
  name : String
  spec : Option NvmeNamespaceSpec
  status : Option NvmeNamespaceStatus
  deriving DecidableEq

/-- Protobuf NvmeSubsystemSpec message; only the nqn field is consumed here. -/
structure NvmeSubsystemSpec where
  nqn : String
  deriving DecidableEq

/-- Protobuf NvmeSubsystem message. -/
structure NvmeSubsystem where
  spec : Option NvmeSubsystemSpec
  deriving DecidableEq

/-- The mutable server state: the Namespaces resource registry, the
Subsystems directory, and the Pagination cursor store (token to offset). -/
structure ServerState where
  namespaces : List (String × NvmeNamespace)
  subsystems : List (String × NvmeSubsystem)
  pagination : List (String × Nat)
  deriving DecidableEq

/-- The server state with empty registry, directory and cursor store. -/
def emptyServerState : ServerState := ⟨[], [], []⟩

/-- models.NvdaControllerNvmeNamespaceAttachParams (field layout as used
by the frontend source; the models package itself is outside src). -/
structure NvdaControllerNvmeNamespaceAttachParams where
  bdevType : String
  bdev : String
  nsid : Int
  subnqn : String
  cntlid : Int
  uuid : String
  nguid : String
  eui64 : String
  deriving DecidableEq

/-- models.NvdaControllerNvmeNamespaceDetachParams. -/
structure NvdaControllerNvmeNamespaceDetachParams where
  nsid : Int
  subnqn : String
  cntlid : Int
  deriving DecidableEq

/-- models.NvdaControllerNvmeNamespaceListParams. -/
structure NvdaControllerNvmeNamespaceListParams where
  subnqn : String
  cntlid : Int
  deriving DecidableEq

/-- One element of the engine list result; only the numeric identifier
field Nsid is consumed by the frontend. -/
structure EngineListedNamespace where
  nsid : Int
  deriving DecidableEq

/-- models.NvdaControllerNvmeNamespaceListResult. -/
structure NvdaControllerNvmeNamespaceListResult where
  namespaces : List EngineListedNamespace
  deriving DecidableEq

/-- One per-device entry of the engine iostat result. -/
structure EngineBdevStat where
  bdevName : String
  readIos : Int
  writeIos : Int
  deriving DecidableEq

/-- One per-controller entry of the engine iostat result. -/
structure EngineControllerStat where
  bdevs : List EngineBdevStat
  deriving DecidableEq

/-- models.NvdaControllerNvmeStatsResult. -/
structure NvdaControllerNvmeStatsResult where
  controllers : List EngineControllerStat
  deriving DecidableEq

/-- An engine command issued through the rpc gateway, with its params. -/
inductive EngineCall where
  | attachNs (p : NvdaControllerNvmeNamespaceAttachParams)
  | detachNs (p : NvdaControllerNvmeNamespaceDetachParams)
  | listNs (p : NvdaControllerNvmeNamespaceListParams)
  | iostat
  deriving DecidableEq

/-- True exactly on the attach command. -/
def isAttachCall : EngineCall → Bool
  | .attachNs _ => true
  | _ => false

/-- gRPC status codes used by the frontend. -/
inductive StatusCode where
  | notFound
  | invalidArgument
  | unimplemented
  deriving DecidableEq

/-- Errors a handler can return.  validationFailed stands for an error
value produced by one of the external validators (required fields,
resource-name grammar, settable-id grammar, update mask); rpcError is a
transport error of the engine gateway; internalError is a plain Go
error (fmt.Errorf); nilDeref marks a Go nil-pointer dereference fault. -/
inductive OpError where
  | validationFailed
  | grpcStatus (code : StatusCode) (msg : String)
  | rpcError (msg : String)
  | internalError (msg : String)
  | nilDeref
  deriving DecidableEq

/-- The outcome of one handler call: the gRPC result, the server state
after the call, and the engine commands issued during the call. -/
structure OpResult (α : Type) where
  result : Except OpError α
  state : ServerState
  calls : List EngineCall

/-- server.ResourceIDToVolumeName from the external SPDK bridge server
package.  Modelled from the spec: the resolved name is the fixed
hierarchical path of the collection segment and the resolved
identifier. -/
def resourceIDToVolumeName (resourceID : String) : String :=
  "namespaces/" ++ resourceID

/-- CreateNvmeNamespaceRequest message. -/
structure CreateNvmeNamespaceRequest where
  nvmeNamespaceId : String
  nvmeNamespace : NvmeNamespace
  deriving DecidableEq

/-- External-collaborator outcomes for one CreateNvmeNamespace call:
the required-fields validator verdict, the settable-id validator
verdict, the system-generated identifier, and the engine response to
controller_nvme_namespace_attach. -/
structure CreateEnv where
  requiredFieldsOk : Bool
  userIdValid : Bool
  generatedId : String
  attachResult : Except String Bool
  deriving DecidableEq

/-- The identifier Create resolves for the new resource: the validated
caller-supplied identifier when present, else the system-generated one. -/
def resolveResourceID (req : CreateNvmeNamespaceRequest) (env : CreateEnv) : String :=
  if req.nvmeNamespaceId ≠ "" then req.nvmeNamespaceId else env.generatedId

/-- The resource name Create resolves for the request. -/
def resolvedName (req : CreateNvmeNamespaceRequest) (env : CreateEnv) : String :=
  resourceIDToVolumeName (resolveResourceID req env)

/-- CreateNvmeNamespace (pkg/frontend/nvme_namespace.go lines 38 to 101). -/
def createNvmeNamespace (s : ServerState) (req : CreateNvmeNamespaceRequest)
    (env : CreateEnv) : OpResult NvmeNamespace :=
  if env.requiredFieldsOk then
    match req.nvmeNamespace.spec with
    | none => ⟨.error (.grpcStatus .invalidArgument "invalid input subsystem parameters"), s, []⟩
    | some sp =>
      match sp.subsystemId with
      | none => ⟨.error (.grpcStatus .invalidArgument "invalid input subsystem parameters"), s, []⟩
      | some subId =>
        if subId.value = "" then
          ⟨.error (.grpcStatus .invalidArgument "invalid input subsystem parameters"), s, []⟩
        else
          if req.nvmeNamespaceId ≠ "" ∧ ¬ env.userIdValid then
            ⟨.error .validationFailed, s, []⟩
          else
            let name := resolvedName req env
            match mapLookup name s.namespaces with
            | some ns => ⟨.ok ns, s, []⟩
            | none =>
              match mapLookup subId.value s.subsystems with
              | none => ⟨.error (.grpcStatus .notFound ("unable to find key " ++ subId.value)), s, []⟩
              | some subsys =>
                match subsys.spec with
                | none => ⟨.error .nilDeref, s, []⟩
                | some subsysSpec =>
                  match sp.volumeId, sp.uuid with
                  | some volId, some uuidKey =>
                    let params : NvdaControllerNvmeNamespaceAttachParams :=
                      { bdevType := "spdk", bdev := volId.value, nsid := sp.hostNsid,
                        subnqn := subsysSpec.nqn, cntlid := 0, uuid := uuidKey.value,
                        nguid := sp.nguid, eui64 := toString sp.eui64 }
                    match env.attachResult with
                    | .error e => ⟨.error (.rpcError e), s, [.attachNs params]⟩
                    | .ok result =>
                      if result then
                        let response : NvmeNamespace :=
                          { name := name, spec := some sp, status := some ⟨2, 1⟩ }
                        ⟨.ok response,
                         { s with namespaces := mapInsert name response s.namespaces },
                         [.attachNs params]⟩
                      else
                        ⟨.error (.grpcStatus .invalidArgument ("Could not create NS: " ++ name)),
                         s, [.attachNs params]⟩
                  | _, _ => ⟨.error .nilDeref, s, []⟩
  else ⟨.error .validationFailed, s, []⟩

/-- DeleteNvmeNamespaceRequest message. -/
structure DeleteNvmeNamespaceRequest where
  name : String
  allowMissing : Bool
  deriving DecidableEq

/-- External-collaborator outcomes for one DeleteNvmeNamespace call. -/
structure DeleteEnv where
  requiredFieldsOk : Bool
  nameValid : Bool
  detachResult : Except String Bool
  deriving DecidableEq

/-- DeleteNvmeNamespace (pkg/frontend/nvme_namespace.go lines 104 to 153). -/
def deleteNvmeNamespace (s : ServerState) (req : DeleteNvmeNamespaceRequest)
    (env : DeleteEnv) : OpResult Unit :=
  if env.requiredFieldsOk then
    if env.nameValid then
      match mapLookup req.name s.namespaces with
      | none =>
        if req.allowMissing then ⟨.ok (), s, []⟩
        else ⟨.error (.grpcStatus .notFound ("unable to find key " ++ req.name)), s, []⟩
      | some ns =>
        match ns.spec with
        | none => ⟨.error .nilDeref, s, []⟩
        | some sp =>
          match sp.subsystemId with
          | none => ⟨.error .nilDeref, s, []⟩
          | some subId =>
            match mapLookup subId.value s.subsystems with
            | none => ⟨.error (.internalError ("unable to find subsystem " ++ subId.value)), s, []⟩
            | some subsys =>
              match subsys.spec with
              | none => ⟨.error .nilDeref, s, []⟩
              | some subsysSpec =>
                let params : NvdaControllerNvmeNamespaceDetachParams :=
                  { nsid := sp.hostNsid, subnqn := subsysSpec.nqn, cntlid := 0 }
                match env.detachResult with
                | .error e => ⟨.error (.rpcError e), s, [.detachNs params]⟩
                | .ok result =>
                  if result then
                    ⟨.ok (), { s with namespaces := mapErase ns.name s.namespaces },
                     [.detachNs params]⟩
                  else
                    ⟨.error (.grpcStatus .invalidArgument ("Could not delete NS: " ++ subId.value)),
                     s, [.detachNs params]⟩
    else ⟨.error .validationFailed, s, []⟩
  else ⟨.error .validationFailed, s, []⟩

/-- UpdateNvmeNamespaceRequest message (the update mask itself is opaque
here; its validator verdict lives in the environment record). -/
structure UpdateNvmeNamespaceRequest where
  nvmeNamespace : NvmeNamespace
  allowMissing : Bool
  deriving DecidableEq

/-- External-collaborator outcomes for one UpdateNvmeNamespace call. -/
structure UpdateEnv where
  requiredFieldsOk : Bool
  nameValid : Bool
  maskValid : Bool
  deriving DecidableEq

/-- UpdateNvmeNamespace (pkg/frontend/nvme_namespace.go lines 156 to 186). -/
def updateNvmeNamespace (s : ServerState) (req : UpdateNvmeNamespaceRequest)
    (env : UpdateEnv) : OpResult NvmeNamespace :=
  if env.requiredFieldsOk then
    if env.nameValid then
      match mapLookup req.nvmeNamespace.name s.namespaces with
      | none =>
        ⟨.error (.grpcStatus .notFound ("unable to find key " ++ req.nvmeNamespace.name)), s, []⟩
      | some _volume =>
        if env.maskValid then
          ⟨.error (.grpcStatus .unimplemented "UpdateNvmeNamespace method is not implemented"), s, []⟩
        else ⟨.error .validationFailed, s, []⟩
    else ⟨.error .validationFailed, s, []⟩
  else ⟨.error .validationFailed, s, []⟩

/-- ListNvmeNamespacesRequest message. -/
structure ListNvmeNamespacesRequest where
  parent : String
  pageSize : Int
  pageToken : String
  deriving DecidableEq

/-- ListNvmeNamespacesResponse message.  The source never assigns the
next-page-token field, so it always carries the Go zero value. -/
structure ListNvmeNamespacesResponse where
  nvmeNamespaces : List NvmeNamespace
  nextPageToken : String
  deriving DecidableEq

/-- External-collaborator outcomes for one ListNvmeNamespaces call; the
byte source feeds the uuid token generator. -/
structure ListEnv where
  requiredFieldsOk : Bool
  listResult : Except String NvdaControllerNvmeNamespaceListResult
  uuidBytes : List Nat
  deriving DecidableEq

/-- server.ExtractPagination from the external SPDK bridge server
package.  Modelled from the spec: page offset and size are resolved via
the Pagination Cursor Store and a page-token decode step that fails if
the token is unrecognized; a non-positive size falls back to a default
window and oversized requests are clamped. -/
def extractPagination (pageSize : Int) (pageToken : String)
    (pagination : List (String × Nat)) : Except OpError (Nat × Nat) :=
  if pageSize < 0 then
    .error (.grpcStatus .invalidArgument "negative PageSize is not allowed")
  else
    let size : Nat := if pageSize = 0 then 50 else if pageSize > 250 then 250 else pageSize.toNat
    if pageToken = "" then .ok (size, 0)
    else
      match mapLookup pageToken pagination with
      | some offset => .ok (size, offset)
      | none => .error (.grpcStatus .notFound ("unable to find pagination token " ++ pageToken))

/-- server.LimitPagination from the external SPDK bridge server package.
Modelled from the spec: truncate the result to the window of size
entries starting at offset, and report whether elements remain beyond
the window. -/
def limitPagination (l : List α) (offset size : Nat) : List α × Bool :=
  ((l.drop offset).take size, decide (offset + size < l.length))

/-- A hexadecimal digit character. -/
def hexDigitChar (n : Nat) : Char :=
  if n < 10 then Char.ofNat (48 + n) else Char.ofNat (87 + n)

/-- Two-digit lowercase hexadecimal form of one byte. -/
def byteToHex (b : Nat) : String :=
  String.mk [hexDigitChar (b / 16 % 16), hexDigitChar (b % 16)]

/-- Lowercase hexadecimal form of a byte list. -/
def bytesToHex (bs : List Nat) : String :=
  String.join (bs.map byteToHex)

/-- The uuid string form of 16 bytes (the external google/uuid token
generator).  Modelled from the spec: an opaque, server-minted token;
the generator renders the bytes as five hyphen-separated hex groups. -/
def uuidString (bs : List Nat) : String :=
  let b := bs ++ List.replicate 16 0
  bytesToHex (b.take 4) ++ "-" ++ bytesToHex ((b.drop 4).take 2) ++ "-" ++
    bytesToHex ((b.drop 6).take 2) ++ "-" ++ bytesToHex ((b.drop 8).take 2) ++ "-" ++
    bytesToHex ((b.drop 10).take 6)

/-- The namespace message List builds from one engine entry: only the
host identifier is set, every other field keeps its zero value. -/
def mkListedNvmeNamespace (r : EngineListedNamespace) : NvmeNamespace :=
  { name := "",
    spec := some { subsystemId := none, volumeId := none, hostNsid := toInt32 r.nsid,
                   uuid := none, nguid := "", eui64 := 0 },
    status := none }

/-- The key sortNvmeNamespaces compares: the host identifier of the
entry.  A nil spec would fault in the source; the total extension by
zero is never reached, since the sort only runs on entries List builds. -/
def nvmeNamespaceSortKey (n : NvmeNamespace) : Int :=
  match n.spec with
  | some sp => sp.hostNsid
  | none => 0

/-- The non-strict comparison induced by the sort key. -/
def nsKeyLE (a b : NvmeNamespace) : Prop :=
  nvmeNamespaceSortKey a ≤ nvmeNamespaceSortKey b

instance : DecidableRel nsKeyLE := fun a b =>
  inferInstanceAs (Decidable (nvmeNamespaceSortKey a ≤ nvmeNamespaceSortKey b))

instance : IsTotal NvmeNamespace nsKeyLE := ⟨fun _ _ => le_total _ _⟩

instance : IsTrans NvmeNamespace nsKeyLE := ⟨fun _ _ _ => le_trans⟩

/-- sortNvmeNamespaces (pkg/frontend/nvme_namespace.go lines 31 to 35):
sort entries by ascending host identifier.  The source uses an unstable
in-place sort; on the entries List builds, entries with equal keys are
equal values, so any sorted permutation is the same list and an
insertion sort embeds it faithfully. -/
def sortNvmeNamespaces (namespaces : List NvmeNamespace) : List NvmeNamespace :=
  List.insertionSort nsKeyLE namespaces

/-- ListNvmeNamespaces (pkg/frontend/nvme_namespace.go lines 189 to 234). -/
def listNvmeNamespaces (s : ServerState) (req : ListNvmeNamespacesRequest)
    (env : ListEnv) : OpResult ListNvmeNamespacesResponse :=
  if env.requiredFieldsOk then
    match extractPagination req.pageSize req.pageToken s.pagination with
    | .error e => ⟨.error e, s, []⟩
    | .ok (size, offset) =>
      match mapLookup req.parent s.subsystems with
      | none => ⟨.error (.grpcStatus .notFound ("unable to find key " ++ req.parent)), s, []⟩
      | some subsys =>
        match subsys.spec with
        | none => ⟨.error .nilDeref, s, []⟩
        | some subsysSpec =>
          let params : NvdaControllerNvmeNamespaceListParams :=
            { subnqn := subsysSpec.nqn, cntlid := 0 }
          match env.listResult with
          | .error e => ⟨.error (.rpcError e), s, [.listNs params]⟩
          | .ok result =>
            let limited := limitPagination result.namespaces offset size
            let pagination2 :=
              if limited.2 then mapInsert (uuidString env.uuidBytes) (offset + size) s.pagination
              else s.pagination
            let blobarray := sortNvmeNamespaces (limited.1.map mkListedNvmeNamespace)
            ⟨.ok { nvmeNamespaces := blobarray, nextPageToken := "" },
             { s with pagination := pagination2 }, [.listNs params]⟩
  else ⟨.error .validationFailed, s, []⟩

/-- GetNvmeNamespaceRequest message. -/
structure GetNvmeNamespaceRequest where
  name : String
  deriving DecidableEq

/-- External-collaborator outcomes for one GetNvmeNamespace call. -/
structure GetEnv where
  requiredFieldsOk : Bool
  nameValid : Bool
  listResult : Except String NvdaControllerNvmeNamespaceListResult
  deriving DecidableEq

/-- GetNvmeNamespace (pkg/frontend/nvme_namespace.go lines 237 to 283). -/
def getNvmeNamespace (s : ServerState) (req : GetNvmeNamespaceRequest)
    (env : GetEnv) : OpResult NvmeNamespace :=
  if env.requiredFieldsOk then
    if env.nameValid then
      match mapLookup req.name s.namespaces with
      | none => ⟨.error (.grpcStatus .notFound ("unable to find key " ++ req.name)), s, []⟩
      | some ns =>
        match ns.spec with
        | none => ⟨.error .nilDeref, s, []⟩
        | some sp =>
          match sp.subsystemId with
          | none => ⟨.error .nilDeref, s, []⟩
          | some subId =>
            match mapLookup subId.value s.subsystems with
            | none => ⟨.error (.grpcStatus .notFound ("unable to find key " ++ subId.value)), s, []⟩
            | some subsys =>
              match subsys.spec with
              | none => ⟨.error .nilDeref, s, []⟩
              | some subsysSpec =>
                let params : NvdaControllerNvmeNamespaceListParams :=
                  { subnqn := subsysSpec.nqn, cntlid := 0 }
                match env.listResult with
                | .error e => ⟨.error (.rpcError e), s, [.listNs params]⟩
                | .ok result =>
                  match result.namespaces.find? (fun r => decide (r.nsid = sp.hostNsid)) with
                  | some r =>
                    ⟨.ok { name := "",
                           spec := some { subsystemId := none, volumeId := none,
                                          hostNsid := toInt32 r.nsid, uuid := none,
                                          nguid := "", eui64 := 0 },
                           status := some ⟨2, 1⟩ }, s, [.listNs params]⟩
                  | none =>
                    ⟨.error (.grpcStatus .invalidArgument
                       ("Could not find HostNsid: " ++ toString sp.hostNsid)), s, [.listNs params]⟩
    else ⟨.error .validationFailed, s, []⟩
  else ⟨.error .validationFailed, s, []⟩

/-- NvmeNamespaceStatsRequest message. -/
structure NvmeNamespaceStatsRequest where
  namespaceId : ObjectKey
  deriving DecidableEq

/-- External-collaborator outcomes for one NvmeNamespaceStats call. -/
structure StatsEnv where
  requiredFieldsOk : Bool
  nameValid : Bool
  statsResult : Except String NvdaControllerNvmeStatsResult
  deriving DecidableEq

/-- VolumeStats message: the two operation counters the frontend fills. -/
structure VolumeStats where
  readOpsCount : Int
  writeOpsCount : Int
  deriving DecidableEq

/-- NvmeNamespaceStatsResponse message. -/
structure NvmeNamespaceStatsResponse where
  id : ObjectKey
  stats : VolumeStats
  deriving DecidableEq

/-- The nested scan of the iostat result: first device entry over the
controllers in order whose name equals the wanted bdev name. -/
def findBdevStat (bdevName : String) : List EngineControllerStat → Option EngineBdevStat
  | [] => none
  | c :: rest =>
    match c.bdevs.find? (fun r => decide (r.bdevName = bdevName)) with
    | some r => some r
    | none => findBdevStat bdevName rest

/-- NvmeNamespaceStats (pkg/frontend/nvme_namespace.go lines 286 to 325). -/
def nvmeNamespaceStats (s : ServerState) (req : NvmeNamespaceStatsRequest)
    (env : StatsEnv) : OpResult NvmeNamespaceStatsResponse :=
  if env.requiredFieldsOk then
    if env.nameValid then
      match mapLookup req.namespaceId.value s.namespaces with
      | none =>
        ⟨.error (.grpcStatus .notFound ("unable to find key " ++ req.namespaceId.value)), s, []⟩
      | some ns =>
        match env.statsResult with
        | .error e => ⟨.error (.rpcError e), s, [.iostat]⟩
        | .ok result =>
          match ns.spec with
          | none => ⟨.error .nilDeref, s, [.iostat]⟩
          | some sp =>
            match sp.volumeId with
            | none => ⟨.error .nilDeref, s, [.iostat]⟩
            | some volId =>
              match findBdevStat volId.value result.controllers with
              | some r =>
                ⟨.ok { id := req.namespaceId,
                       stats := { readOpsCount := toInt32 r.readIos,
                                  writeOpsCount := toInt32 r.writeIos } }, s, [.iostat]⟩
              | none =>
                ⟨.error (.grpcStatus .invalidArgument
                   ("Could not find BdevName: " ++ volId.value)), s, [.iostat]⟩
    else ⟨.error .validationFailed, s, []⟩
  else ⟨.error .validationFailed, s, []⟩

/-- One inbound call to any of the six handlers, with its request and
its external-collaborator outcomes. -/
inductive Op where
  | create (req : CreateNvmeNamespaceRequest) (env : CreateEnv)
  | delete (req : DeleteNvmeNamespaceRequest) (env : DeleteEnv)
  | update (req : UpdateNvmeNamespaceRequest) (env : UpdateEnv)
  | list (req : ListNvmeNamespacesRequest) (env : ListEnv)
  | get (req : GetNvmeNamespaceRequest) (env : GetEnv)
  | stats (req : NvmeNamespaceStatsRequest) (env : StatsEnv)

/-- The server state after one handler call. -/
def applyOp (s : ServerState) : Op → ServerState
  | .create req env => (createNvmeNamespace s req env).state
  | .delete req env => (deleteNvmeNamespace s req env).state
  | .update req env => (updateNvmeNamespace s req env).state
  | .list req env => (listNvmeNamespaces s req env).state
  | .get req env => (getNvmeNamespace s req env).state
  | .stats req env => (nvmeNamespaceStats s req env).state

/-- The server state after a sequence of handler calls. -/
def runOps (s : ServerState) : List Op → ServerState
  | [] => s
  | op :: rest => runOps (applyOp s op) rest

/-- True exactly on Create calls. -/
def isCreateOp : Op → Bool
  | .create _ _ => true
  | _ => false

/-- True exactly on Delete calls. -/
def isDeleteOp : Op → Bool
  | .delete _ _ => true
  | _ => false

/-! ### Helper lemmas about the map embedding and the int32 cast -/

theorem toInt32_eq_self {n : Int} (h1 : -2147483648 ≤ n) (h2 : n < 2147483648) :
    toInt32 n = n := by
  unfold toInt32
  omega

theorem mapLookup_mapInsert (k j : String) (v : α) (m : List (String × α)) :
    mapLookup k (mapInsert j v m) = if k = j then some v else mapLookup k m := by
  induction m with
  | nil => by_cases h : k = j <;> simp [mapInsert, mapLookup, h]
  | cons p rest ih =>
    obtain ⟨k3, v3⟩ := p
    simp only [mapInsert]
    by_cases hj : j = k3
    · simp only [if_pos hj]
      subst hj
      by_cases hk : k = j <;> simp [mapLookup, hk]
    · simp only [if_neg hj, mapLookup, ih]
      by_cases hk : k = k3
      · subst hk
        have hkj : ¬ k = j := fun h => hj (h ▸ rfl)
        simp [hkj]
      · simp [hk]

theorem mem_mapInsert {p : String × α} {j : String} {v : α} {m : List (String × α)}
    (h : p ∈ mapInsert j v m) : p = (j, v) ∨ p ∈ m := by
  induction m with
  | nil => simpa [mapInsert] using h
  | cons q rest ih =>
    simp only [mapInsert] at h
    split at h
    · rcases List.mem_cons.mp h with h | h
      · exact Or.inl h
      · exact Or.inr (List.mem_cons_of_mem _ h)
    · rcases List.mem_cons.mp h with h | h
      · exact Or.inr (h ▸ List.mem_cons_self _ _)
      · rcases ih h with h | h
        · exact Or.inl h
        · exact Or.inr (List.mem_cons_of_mem _ h)

theorem mem_mapErase {p : String × α} {j : String} {m : List (String × α)}
    (h : p ∈ mapErase j m) : p ∈ m := by
  induction m with
  | nil => simp [mapErase] at h
  | cons q rest ih =>
    simp only [mapErase] at h
    split at h
    · exact List.mem_cons_of_mem _ h
    · rcases List.mem_cons.mp h with h | h
      · exact h ▸ List.mem_cons_self _ _
      · exact List.mem_cons_of_mem _ (ih h)

theorem mapLookup_mem {k : String} {v : α} {m : List (String × α)}
    (h : mapLookup k m = some v) : (k, v) ∈ m := by
  induction m with
  | nil => simp [mapLookup] at h
  | cons q rest ih =>
    obtain ⟨k3, v3⟩ := q
    simp only [mapLookup] at h
    split at h
    · next h2 =>
        cases h
        subst h2
        exact List.mem_cons_self _ _
    · exact List.mem_cons_of_mem _ (ih h)

theorem mapLookup_eq_none {k : String} {m : List (String × α)} :
    mapLookup k m = none ↔ ∀ p ∈ m, p.1 ≠ k := by
  induction m with
  | nil => simp [mapLookup]
  | cons q rest ih =>
    obtain ⟨k3, v3⟩ := q
    simp only [mapLookup]
    split
    · next h2 => simp [h2.symm]
    · next h2 =>
        simp only [ih, List.mem_cons]
        constructor
        · intro h p hp
          rcases hp with hp | hp
          · subst hp; exact fun h3 => h2 h3.symm
          · exact h p hp
        · intro h p hp
          exact h p (Or.inr hp)

theorem mapLookup_mapErase_none {k j : String} {m : List (String × α)}
    (h : mapLookup k m = none) : mapLookup k (mapErase j m) = none := by
  rw [mapLookup_eq_none] at h ⊢
  exact fun p hp => h p (mem_mapErase hp)

theorem uuidString_ne_empty (bs : List Nat) : uuidString bs ≠ "" := by
  intro h
  have h2 := congrArg String.length h
  have hdash : ("-" : String).length = 1 := rfl
  have hempty : ("" : String).length = 0 := rfl
  simp only [uuidString, String.length_append, hdash, hempty] at h2
  omega

/-! ### Claim C3: Delete on a name absent from the registry -/

/-- Claim C3: for every DeleteNvmeNamespace request whose name is absent
from the Resource Registry, if allow missing is set the operation
succeeds, issues no engine call and leaves the state unchanged; and if
it is not set the operation fails NotFound, likewise with no engine
call and no state change. -/
theorem deleteNvmeNamespace_on_missing_name (s : ServerState)
    (req : DeleteNvmeNamespaceRequest) (env : DeleteEnv)
    (hreq : env.requiredFieldsOk = true) (hname : env.nameValid = true)
    (habs : mapLookup req.name s.namespaces = none) :
    (req.allowMissing = true → deleteNvmeNamespace s req env = ⟨.ok (), s, []⟩) ∧
    (req.allowMissing = false →
      deleteNvmeNamespace s req env =
        ⟨.error (.grpcStatus .notFound ("unable to find key " ++ req.name)), s, []⟩) := by
  constructor <;> intro ham <;> simp [deleteNvmeNamespace, hreq, hname, habs, ham]

/-- Witness for claim C3 at a concrete input. -/
theorem deleteNvmeNamespace_on_missing_name_witness :
    (deleteNvmeNamespace emptyServerState ⟨"namespaces/n0", true⟩ ⟨true, true, .ok true⟩ =
      ⟨.ok (), emptyServerState, []⟩) ∧
    (deleteNvmeNamespace emptyServerState ⟨"namespaces/n0", false⟩ ⟨true, true, .ok true⟩ =
      ⟨.error (.grpcStatus .notFound "unable to find key namespaces/n0"), emptyServerState, []⟩) :=
  ⟨(deleteNvmeNamespace_on_missing_name emptyServerState ⟨"namespaces/n0", true⟩
      ⟨true, true, .ok true⟩ rfl rfl rfl).1 rfl,
   (deleteNvmeNamespace_on_missing_name emptyServerState ⟨"namespaces/n0", false⟩
      ⟨true, true, .ok true⟩ rfl rfl rfl).2 rfl⟩

/-! ### Claim C2: Get outcome paths -/

/-- Claim C2: a Get request whose name is absent from the Resource
Registry fails NotFound; a request whose name is registered but whose
stored host identifier matches no identifier in the engine list result
for the resolved subsystem fails InvalidArgument; and when a matching
identifier exists, the returned descriptor carries that identifier
together with the fixed attached status (PciState 2, PciOperState 1). -/
theorem getNvmeNamespace_outcomes (s : ServerState) (req : GetNvmeNamespaceRequest)
    (env : GetEnv) (hreq : env.requiredFieldsOk = true) (hname : env.nameValid = true) :
    (mapLookup req.name s.namespaces = none →
      getNvmeNamespace s req env =
        ⟨.error (.grpcStatus .notFound ("unable to find key " ++ req.name)), s, []⟩) ∧
    (∀ (ns : NvmeNamespace) (sp : NvmeNamespaceSpec) (subId : ObjectKey)
       (subsys : NvmeSubsystem) (ssp : NvmeSubsystemSpec)
       (lres : NvdaControllerNvmeNamespaceListResult),
      mapLookup req.name s.namespaces = some ns → ns.spec = some sp →
      sp.subsystemId = some subId → mapLookup subId.value s.subsystems = some subsys →
      subsys.spec = some ssp → env.listResult = .ok lres →
      ((∀ r ∈ lres.namespaces, r.nsid ≠ sp.hostNsid) →
        (getNvmeNamespace s req env).result =
          .error (.grpcStatus .invalidArgument
            ("Could not find HostNsid: " ++ toString sp.hostNsid))) ∧
      (∀ r ∈ lres.namespaces, r.nsid = sp.hostNsid →
        -2147483648 ≤ sp.hostNsid → sp.hostNsid < 2147483648 →
        (getNvmeNamespace s req env).result =
          .ok { name := "",
                spec := some { subsystemId := none, volumeId := none,
                               hostNsid := sp.hostNsid, uuid := none, nguid := "", eui64 := 0 },
                status := some ⟨2, 1⟩ })) := by
  constructor
  · intro habs
    simp [getNvmeNamespace, hreq, hname, habs]
  · intro ns sp subId subsys ssp lres hns hsp hsub hdir hssp hlist
    constructor
    · intro hnone
      have hfind : lres.namespaces.find? (fun r => decide (r.nsid = sp.hostNsid)) = none := by
        rw [List.find?_eq_none]
        intro r hr
        simp only [decide_eq_true_eq]
        exact hnone r hr
      simp [getNvmeNamespace, hreq, hname, hns, hsp, hsub, hdir, hssp, hlist, hfind]
    · intro r hr hmatch hlo hhi
      rcases hfind : lres.namespaces.find? (fun r => decide (r.nsid = sp.hostNsid)) with _ | r0
      · rw [List.find?_eq_none] at hfind
        exact absurd (by simpa using hmatch) (hfind r hr)
      · have hr0 : r0.nsid = sp.hostNsid := by
          have := List.find?_some hfind
          simpa using this
        simp [getNvmeNamespace, hreq, hname, hns, hsp, hsub, hdir, hssp, hlist, hfind, hr0,
          toInt32_eq_self hlo hhi]

/-- A concrete registered namespace with host identifier 5, used by
several witnesses. -/
def specN1 : NvmeNamespaceSpec := ⟨some ⟨"subsys1"⟩, some ⟨"v1"⟩, 5, some ⟨"uuid1"⟩, "", 0⟩

/-- A concrete namespace resource under its resolved name. -/
def nsN1 : NvmeNamespace := ⟨"namespaces/n1", some specN1, some ⟨2, 1⟩⟩

/-- A concrete server state holding nsN1 and its subsystem. -/
def stateN1 : ServerState := ⟨[("namespaces/n1", nsN1)], [("subsys1", ⟨some ⟨"nqn1"⟩⟩)], []⟩

/-- Witness for claim C2 at concrete inputs: an absent name, a registry
and engine view that disagree, and a registry and engine view that
agree on host identifier 5. -/
theorem getNvmeNamespace_outcomes_witness :
    (getNvmeNamespace emptyServerState ⟨"namespaces/n0"⟩ ⟨true, true, .ok ⟨[]⟩⟩ =
      ⟨.error (.grpcStatus .notFound "unable to find key namespaces/n0"), emptyServerState, []⟩) ∧
    ((getNvmeNamespace stateN1 ⟨"namespaces/n1"⟩ ⟨true, true, .ok ⟨[⟨7⟩]⟩⟩).result =
      .error (.grpcStatus .invalidArgument "Could not find HostNsid: 5")) ∧
    ((getNvmeNamespace stateN1 ⟨"namespaces/n1"⟩ ⟨true, true, .ok ⟨[⟨7⟩, ⟨5⟩]⟩⟩).result =
      .ok ⟨"", some ⟨none, none, 5, none, "", 0⟩, some ⟨2, 1⟩⟩) :=
  ⟨(getNvmeNamespace_outcomes emptyServerState ⟨"namespaces/n0"⟩ ⟨true, true, .ok ⟨[]⟩⟩
      rfl rfl).1 rfl,
   ((getNvmeNamespace_outcomes stateN1 ⟨"namespaces/n1"⟩ ⟨true, true, .ok ⟨[⟨7⟩]⟩⟩ rfl rfl).2
      nsN1 specN1 ⟨"subsys1"⟩ ⟨some ⟨"nqn1"⟩⟩ ⟨"nqn1"⟩ ⟨[⟨7⟩]⟩
      (by decide) rfl rfl (by decide) rfl rfl).1 (by decide),
   ((getNvmeNamespace_outcomes stateN1 ⟨"namespaces/n1"⟩ ⟨true, true, .ok ⟨[⟨7⟩, ⟨5⟩]⟩⟩
      rfl rfl).2
      nsN1 specN1 ⟨"subsys1"⟩ ⟨some ⟨"nqn1"⟩⟩ ⟨"nqn1"⟩ ⟨[⟨7⟩, ⟨5⟩]⟩
      (by decide) rfl rfl (by decide) rfl rfl).2 ⟨5⟩ (by decide) rfl (by decide) (by decide)⟩

/-! ### Claim C1: Create is idempotent on the resolved name -/

/-- Claim C1: when the Resource Registry already contains an entry
under the resolved name, Create returns that stored entry unchanged,
performs no engine attach call, and leaves the state unmodified; and
calling Create twice with the same caller-supplied identifier yields
the same Namespace both times with exactly one engine attach issued in
total. -/
theorem createNvmeNamespace_idempotent :
    (∀ (s : ServerState) (req : CreateNvmeNamespaceRequest) (env : CreateEnv)
       (sp : NvmeNamespaceSpec) (subId : ObjectKey) (ns0 : NvmeNamespace),
      env.requiredFieldsOk = true →
      req.nvmeNamespace.spec = some sp → sp.subsystemId = some subId → subId.value ≠ "" →
      (req.nvmeNamespaceId ≠ "" → env.userIdValid = true) →
      mapLookup (resolvedName req env) s.namespaces = some ns0 →
      createNvmeNamespace s req env = ⟨.ok ns0, s, []⟩) ∧
    (∀ (s : ServerState) (req : CreateNvmeNamespaceRequest) (env env2 : CreateEnv)
       (sp : NvmeNamespaceSpec) (subId volId uuidKey : ObjectKey)
       (subsys : NvmeSubsystem) (ssp : NvmeSubsystemSpec),
      req.nvmeNamespaceId ≠ "" →
      env.requiredFieldsOk = true → env.userIdValid = true →
      env2.requiredFieldsOk = true → env2.userIdValid = true →
      req.nvmeNamespace.spec = some sp → sp.subsystemId = some subId → subId.value ≠ "" →
      sp.volumeId = some volId → sp.uuid = some uuidKey →
      mapLookup (resourceIDToVolumeName req.nvmeNamespaceId) s.namespaces = none →
      mapLookup subId.value s.subsystems = some subsys → subsys.spec = some ssp →
      env.attachResult = .ok true →
      ∃ ns1,
        (createNvmeNamespace s req env).result = .ok ns1 ∧
        createNvmeNamespace (createNvmeNamespace s req env).state req env2 =
          ⟨.ok ns1, (createNvmeNamespace s req env).state, []⟩ ∧
        (((createNvmeNamespace s req env).calls ++
          (createNvmeNamespace (createNvmeNamespace s req env).state req env2).calls).filter
            isAttachCall).length = 1) := by
  constructor
  · intro s req env sp subId ns0 hreq hsp hsub hval hid hlook
    have hnotid : ¬ (req.nvmeNamespaceId ≠ "" ∧ ¬ env.userIdValid = true) := by
      intro h
      exact h.2 (hid h.1)
    simp only [createNvmeNamespace, hreq, if_true, hsp, hsub]
    rw [if_neg hval, if_neg (by simpa using hnotid)]
    simp [hlook]
  · intro s req env env2 sp subId volId uuidKey subsys ssp hid hreq huid hreq2 huid2 hsp hsub
      hval hvol huuid hfresh hdir hssp hattach
    have hname : resolvedName req env = resourceIDToVolumeName req.nvmeNamespaceId := by
      simp [resolvedName, resolveResourceID, hid]
    have hname2 : resolvedName req env2 = resourceIDToVolumeName req.nvmeNamespaceId := by
      simp [resolvedName, resolveResourceID, hid]
    have hnotid : ¬ (req.nvmeNamespaceId ≠ "" ∧ ¬ env.userIdValid = true) := by
      intro h
      exact h.2 huid
    have hnotid2 : ¬ (req.nvmeNamespaceId ≠ "" ∧ ¬ env2.userIdValid = true) := by
      intro h
      exact h.2 huid2
    have h1 : createNvmeNamespace s req env =
        ⟨.ok ⟨resourceIDToVolumeName req.nvmeNamespaceId, some sp, some ⟨2, 1⟩⟩,
         ⟨mapInsert (resourceIDToVolumeName req.nvmeNamespaceId)
            ⟨resourceIDToVolumeName req.nvmeNamespaceId, some sp, some ⟨2, 1⟩⟩ s.namespaces,
          s.subsystems, s.pagination⟩,
         [.attachNs ⟨"spdk", volId.value, sp.hostNsid, ssp.nqn, 0, uuidKey.value,
            sp.nguid, toString sp.eui64⟩]⟩ := by
      simp only [createNvmeNamespace, hreq, if_true, hsp, hsub]
      rw [if_neg hval, if_neg (by simpa using hnotid)]
      simp [hname, hfresh, hdir, hssp, hvol, huuid, hattach]
    refine ⟨⟨resourceIDToVolumeName req.nvmeNamespaceId, some sp, some ⟨2, 1⟩⟩, ?_, ?_, ?_⟩
    · rw [h1]
    · rw [h1]
      simp only [createNvmeNamespace, hreq2, if_true, hsp, hsub]
      rw [if_neg hval, if_neg (by simpa using hnotid2)]
      simp [hname2, mapLookup_mapInsert]
    · rw [h1]
      simp only [createNvmeNamespace, hreq2, if_true, hsp, hsub]
      rw [if_neg hval, if_neg (by simpa using hnotid2)]
      simp [hname2, mapLookup_mapInsert, isAttachCall]

/-- Witness for claim C1 at a concrete input: the first Create against
stateN1 with a fresh identifier succeeds with one attach call, and the
second Create returns the same object with no further engine call. -/
theorem createNvmeNamespace_idempotent_witness :
    ((createNvmeNamespace stateN1 ⟨"n2", ⟨"", some specN1, none⟩⟩
        ⟨true, true, "gen", .ok true⟩).result =
      .ok ⟨"namespaces/n2", some specN1, some ⟨2, 1⟩⟩) ∧
    (createNvmeNamespace
        (createNvmeNamespace stateN1 ⟨"n2", ⟨"", some specN1, none⟩⟩
          ⟨true, true, "gen", .ok true⟩).state
        ⟨"n2", ⟨"", some specN1, none⟩⟩ ⟨true, true, "gen2", .error "down"⟩ =
      ⟨.ok ⟨"namespaces/n2", some specN1, some ⟨2, 1⟩⟩,
       (createNvmeNamespace stateN1 ⟨"n2", ⟨"", some specN1, none⟩⟩
         ⟨true, true, "gen", .ok true⟩).state, []⟩) := by
  obtain ⟨ns1, hres, hsecond, _⟩ :=
    createNvmeNamespace_idempotent.2 stateN1 ⟨"n2", ⟨"", some specN1, none⟩⟩
      ⟨true, true, "gen", .ok true⟩ ⟨true, true, "gen2", .error "down"⟩
      specN1 ⟨"subsys1"⟩ ⟨"v1"⟩ ⟨"uuid1"⟩ ⟨some ⟨"nqn1"⟩⟩ ⟨"nqn1"⟩
      (by decide) rfl rfl rfl rfl rfl rfl (by decide) rfl rfl (by decide) (by decide) rfl rfl
  have hns : (Except.ok ns1 : Except OpError NvmeNamespace) =
      .ok ⟨"namespaces/n2", some specN1, some ⟨2, 1⟩⟩ := by
    rw [← hres]
    decide
  injection hns with h
  subst h
  exact ⟨hres, hsecond⟩

/-! ### Claim C9: Create performs no conflict detection on the spec -/

/-- Claim C9: when the Resource Registry already holds an entry under
the resolved name, Create returns that stored entry even when the
request spec differs from the stored one: the differing input is
silently ignored rather than rejected, the state is untouched, no
engine call is issued, and the returned object disagrees with the
request. -/
theorem createNvmeNamespace_no_conflict_detection
    (s : ServerState) (req : CreateNvmeNamespaceRequest) (env : CreateEnv)
    (sp : NvmeNamespaceSpec) (subId : ObjectKey) (ns0 : NvmeNamespace)
    (hreq : env.requiredFieldsOk = true)
    (hsp : req.nvmeNamespace.spec = some sp) (hsub : sp.subsystemId = some subId)
    (hval : subId.value ≠ "")
    (hid : req.nvmeNamespaceId ≠ "" → env.userIdValid = true)
    (hlook : mapLookup (resolvedName req env) s.namespaces = some ns0)
    (hdiff : ns0.spec ≠ req.nvmeNamespace.spec) :
    createNvmeNamespace s req env = ⟨.ok ns0, s, []⟩ ∧
    (∀ retNs, (createNvmeNamespace s req env).result = .ok retNs →
      retNs.spec ≠ req.nvmeNamespace.spec) := by
  have hnotid : ¬ (req.nvmeNamespaceId ≠ "" ∧ ¬ env.userIdValid = true) := by
    intro h
    exact h.2 (hid h.1)
  have hmain : createNvmeNamespace s req env = ⟨.ok ns0, s, []⟩ := by
    simp only [createNvmeNamespace, hreq, if_true, hsp, hsub]
    rw [if_neg hval, if_neg (by simpa using hnotid)]
    simp [hlook]
  refine ⟨hmain, ?_⟩
  intro retNs hret
  rw [hmain] at hret
  cases hret
  exact hdiff

/-- Witness for claim C9 at a concrete input: a second Create under the
name of nsN1 with host identifier 9 in its spec still returns nsN1,
whose spec keeps host identifier 5. -/
theorem createNvmeNamespace_no_conflict_detection_witness :
    createNvmeNamespace stateN1
      ⟨"n1", ⟨"", some ⟨some ⟨"subsys1"⟩, some ⟨"v9"⟩, 9, some ⟨"uuid9"⟩, "", 0⟩, none⟩⟩
      ⟨true, true, "gen", .ok true⟩ = ⟨.ok nsN1, stateN1, []⟩ :=
  (createNvmeNamespace_no_conflict_detection stateN1
    ⟨"n1", ⟨"", some ⟨some ⟨"subsys1"⟩, some ⟨"v9"⟩, 9, some ⟨"uuid9"⟩, "", 0⟩, none⟩⟩
    ⟨true, true, "gen", .ok true⟩
    ⟨some ⟨"subsys1"⟩, some ⟨"v9"⟩, 9, some ⟨"uuid9"⟩, "", 0⟩ ⟨"subsys1"⟩ nsN1
    rfl rfl rfl (by decide) (fun _ => rfl) (by decide) (by decide)).1

/-! ### Claim C6: Create is atomic -/

/-- Claim C6: on every failure path of Create the whole server state is
unchanged, and a registry entry for the resolved name exists after the
call exactly when the call succeeded or the entry already existed
before the call. -/
theorem createNvmeNamespace_atomic (s : ServerState)
    (req : CreateNvmeNamespaceRequest) (env : CreateEnv) :
    (∀ e, (createNvmeNamespace s req env).result = .error e →
      (createNvmeNamespace s req env).state = s) ∧
    ((mapLookup (resolvedName req env)
        (createNvmeNamespace s req env).state.namespaces).isSome = true ↔
      ((createNvmeNamespace s req env).result.isOk = true ∨
        (mapLookup (resolvedName req env) s.namespaces).isSome = true)) := by
  generalize hc : createNvmeNamespace s req env = X
  simp only [createNvmeNamespace] at hc
  repeat' split at hc
  all_goals subst hc
  all_goals simp_all [Except.isOk, Except.toBool, mapLookup_mapInsert]

/-- Witness for claim C6 at a concrete input: Create against the empty
state fails NotFound on the missing subsystem and leaves the state
unchanged, and afterwards the registry holds the resolved name exactly
when it did before. -/
theorem createNvmeNamespace_atomic_witness :
    ((createNvmeNamespace emptyServerState ⟨"n1", ⟨"", some specN1, none⟩⟩
        ⟨true, true, "gen", .ok true⟩).state = emptyServerState) ∧
    ((mapLookup (resolvedName ⟨"n1", ⟨"", some specN1, none⟩⟩ ⟨true, true, "gen", .ok true⟩)
        (createNvmeNamespace emptyServerState ⟨"n1", ⟨"", some specN1, none⟩⟩
          ⟨true, true, "gen", .ok true⟩).state.namespaces).isSome = true ↔
      ((createNvmeNamespace emptyServerState ⟨"n1", ⟨"", some specN1, none⟩⟩
          ⟨true, true, "gen", .ok true⟩).result.isOk = true ∨
        (mapLookup (resolvedName ⟨"n1", ⟨"", some specN1, none⟩⟩ ⟨true, true, "gen", .ok true⟩)
          emptyServerState.namespaces).isSome = true)) :=
  ⟨(createNvmeNamespace_atomic emptyServerState ⟨"n1", ⟨"", some specN1, none⟩⟩
      ⟨true, true, "gen", .ok true⟩).1
      (.grpcStatus .notFound "unable to find key subsys1") (by decide),
   (createNvmeNamespace_atomic emptyServerState ⟨"n1", ⟨"", some specN1, none⟩⟩
      ⟨true, true, "gen", .ok true⟩).2⟩

/-! ### Claim C4: List pagination window and token minting -/

theorem sortNvmeNamespaces_perm (l : List NvmeNamespace) : (sortNvmeNamespaces l).Perm l :=
  List.perm_insertionSort nsKeyLE l

/-- Claim C4: a successful List call with resolved page size and offset
returns at most pagesize entries, namely the window of the engine
result starting at the offset; when entries remain beyond the window a
non-empty continuation token is minted and stored in the Pagination
Cursor Store mapping to the next offset, and otherwise the store is
left unchanged. -/
theorem listNvmeNamespaces_pagination (s : ServerState)
    (req : ListNvmeNamespacesRequest) (env : ListEnv) (subsys : NvmeSubsystem)
    (ssp : NvmeSubsystemSpec) (lres : NvdaControllerNvmeNamespaceListResult)
    (size offset : Nat)
    (hreq : env.requiredFieldsOk = true)
    (hpag : extractPagination req.pageSize req.pageToken s.pagination = .ok (size, offset))
    (hdir : mapLookup req.parent s.subsystems = some subsys)
    (hssp : subsys.spec = some ssp)
    (hlist : env.listResult = .ok lres) :
    (∀ resp, (listNvmeNamespaces s req env).result = .ok resp →
      resp.nvmeNamespaces.length ≤ size ∧
      resp.nvmeNamespaces.Perm
        (((lres.namespaces.drop offset).take size).map mkListedNvmeNamespace)) ∧
    (offset + size < lres.namespaces.length →
      (listNvmeNamespaces s req env).state.pagination =
        mapInsert (uuidString env.uuidBytes) (offset + size) s.pagination ∧
      uuidString env.uuidBytes ≠ "") ∧
    (¬ offset + size < lres.namespaces.length →
      (listNvmeNamespaces s req env).state.pagination = s.pagination) := by
  by_cases hmore : offset + size < lres.namespaces.length
  · have hmain : listNvmeNamespaces s req env =
        ⟨.ok ⟨sortNvmeNamespaces
            (((lres.namespaces.drop offset).take size).map mkListedNvmeNamespace), ""⟩,
         ⟨s.namespaces, s.subsystems,
          mapInsert (uuidString env.uuidBytes) (offset + size) s.pagination⟩,
         [.listNs ⟨ssp.nqn, 0⟩]⟩ := by
      simp [listNvmeNamespaces, hreq, hpag, hdir, hssp, hlist, limitPagination, hmore]
    refine ⟨?_, fun _ => ⟨by rw [hmain], uuidString_ne_empty env.uuidBytes⟩,
      fun h => absurd hmore h⟩
    intro resp hresp
    rw [hmain] at hresp
    cases hresp
    constructor
    · calc (sortNvmeNamespaces _).length
          = (((lres.namespaces.drop offset).take size).map mkListedNvmeNamespace).length :=
            (sortNvmeNamespaces_perm _).length_eq
        _ ≤ size := by simp [List.length_take]
    · exact sortNvmeNamespaces_perm _
  · have hmain : listNvmeNamespaces s req env =
        ⟨.ok ⟨sortNvmeNamespaces
            (((lres.namespaces.drop offset).take size).map mkListedNvmeNamespace), ""⟩,
         ⟨s.namespaces, s.subsystems, s.pagination⟩,
         [.listNs ⟨ssp.nqn, 0⟩]⟩ := by
      simp [listNvmeNamespaces, hreq, hpag, hdir, hssp, hlist, limitPagination, hmore]
    refine ⟨?_, fun h => absurd h hmore, fun _ => by rw [hmain]⟩
    intro resp hresp
    rw [hmain] at hresp
    cases hresp
    constructor
    · calc (sortNvmeNamespaces _).length
          = (((lres.namespaces.drop offset).take size).map mkListedNvmeNamespace).length :=
            (sortNvmeNamespaces_perm _).length_eq
        _ ≤ size := by simp [List.length_take]
    · exact sortNvmeNamespaces_perm _

/-- Witness for claim C4 at a concrete input: a three-element engine
result listed with page size two returns a two-element window and
stores the minted token mapping to offset two. -/
theorem listNvmeNamespaces_pagination_witness :
    ((listNvmeNamespaces ⟨[], [("subsys1", ⟨some ⟨"nqn1"⟩⟩)], []⟩
        ⟨"subsys1", 2, ""⟩ ⟨true, .ok ⟨[⟨1⟩, ⟨2⟩, ⟨3⟩]⟩, []⟩).result =
      .ok ⟨[mkListedNvmeNamespace ⟨1⟩, mkListedNvmeNamespace ⟨2⟩], ""⟩) ∧
    ((listNvmeNamespaces ⟨[], [("subsys1", ⟨some ⟨"nqn1"⟩⟩)], []⟩
        ⟨"subsys1", 2, ""⟩ ⟨true, .ok ⟨[⟨1⟩, ⟨2⟩, ⟨3⟩]⟩, []⟩).state.pagination =
      mapInsert (uuidString []) 2 []) ∧
    uuidString [] ≠ "" := by
  have hw := listNvmeNamespaces_pagination ⟨[], [("subsys1", ⟨some ⟨"nqn1"⟩⟩)], []⟩
    ⟨"subsys1", 2, ""⟩ ⟨true, .ok ⟨[⟨1⟩, ⟨2⟩, ⟨3⟩]⟩, []⟩ ⟨some ⟨"nqn1"⟩⟩ ⟨"nqn1"⟩
    ⟨[⟨1⟩, ⟨2⟩, ⟨3⟩]⟩ 2 0 rfl (by decide) (by decide) rfl rfl
  obtain ⟨hstore, htok⟩ := hw.2.1 (by decide)
  exact ⟨by decide, hstore, htok⟩

/-! ### Claim C5: order of listed entries -/

/-- The sort-key order strengthened with equality, an antisymmetric
relation on listed entries. -/
def listedOrder (a b : NvmeNamespace) : Prop :=
  nvmeNamespaceSortKey a < nvmeNamespaceSortKey b ∨ a = b

instance : IsAntisymm NvmeNamespace listedOrder where
  antisymm a b h1 h2 := by
    rcases h1 with h1 | h1
    · rcases h2 with h2 | h2
      · exact absurd h2 (not_lt.mpr (le_of_lt h1))
      · exact h2.symm
    · exact h1

theorem mkListedNvmeNamespace_key_inj (r r2 : EngineListedNamespace)
    (h : nvmeNamespaceSortKey (mkListedNvmeNamespace r) =
      nvmeNamespaceSortKey (mkListedNvmeNamespace r2)) :
    mkListedNvmeNamespace r = mkListedNvmeNamespace r2 := by
  simp only [mkListedNvmeNamespace, nvmeNamespaceSortKey] at h ⊢
  simp [h]

theorem sortNvmeNamespaces_map_sorted_listedOrder (l : List EngineListedNamespace) :
    (sortNvmeNamespaces (l.map mkListedNvmeNamespace)).Sorted listedOrder := by
  have hmem : ∀ a ∈ sortNvmeNamespaces (l.map mkListedNvmeNamespace),
      ∃ r, a = mkListedNvmeNamespace r := by
    intro a ha
    have ha2 : a ∈ l.map mkListedNvmeNamespace := (sortNvmeNamespaces_perm _).mem_iff.mp ha
    rcases List.mem_map.mp ha2 with ⟨r, _, hr⟩
    exact ⟨r, hr.symm⟩
  have hs : (sortNvmeNamespaces (l.map mkListedNvmeNamespace)).Sorted nsKeyLE :=
    List.sorted_insertionSort nsKeyLE (l.map mkListedNvmeNamespace)
  refine List.Pairwise.imp_of_mem ?_ hs
  intro a b ha hb hab
  rcases lt_or_eq_of_le hab with h | h
  · exact Or.inl h
  · rcases hmem a ha with ⟨r, rfl⟩
    rcases hmem b hb with ⟨r2, rfl⟩
    exact Or.inr (mkListedNvmeNamespace_key_inj r r2 h)

theorem sortNvmeNamespaces_map_eq_of_perm {l1 l2 : List EngineListedNamespace}
    (h : l1.Perm l2) :
    sortNvmeNamespaces (l1.map mkListedNvmeNamespace) =
      sortNvmeNamespaces (l2.map mkListedNvmeNamespace) := by
  have hp : (sortNvmeNamespaces (l1.map mkListedNvmeNamespace)).Perm
      (sortNvmeNamespaces (l2.map mkListedNvmeNamespace)) :=
    ((sortNvmeNamespaces_perm _).trans (h.map _)).trans (sortNvmeNamespaces_perm _).symm
  exact List.eq_of_perm_of_sorted hp
    (sortNvmeNamespaces_map_sorted_listedOrder l1)
    (sortNvmeNamespaces_map_sorted_listedOrder l2)

/-- Counterexample to claim C5 as stated: two List calls over the same
state whose engine results report the same set of identifiers in
different orders return different entry lists, because the window is
cut before sorting; the reported set does not determine the output once
the result is truncated. -/
theorem listNvmeNamespaces_order_dependent_counterexample :
    (([⟨3⟩, ⟨1⟩] : List EngineListedNamespace).Perm [⟨1⟩, ⟨3⟩]) ∧
    (listNvmeNamespaces ⟨[], [("subsys1", ⟨some ⟨"nqn1"⟩⟩)], []⟩ ⟨"subsys1", 1, ""⟩
        ⟨true, .ok ⟨[⟨3⟩, ⟨1⟩]⟩, []⟩).result ≠
      (listNvmeNamespaces ⟨[], [("subsys1", ⟨some ⟨"nqn1"⟩⟩)], []⟩ ⟨"subsys1", 1, ""⟩
        ⟨true, .ok ⟨[⟨1⟩, ⟨3⟩]⟩, []⟩).result := by
  constructor
  · decide
  · decide

/-- Claim C5 as amended: every successful List response is sorted in
ascending order of host identifier; and whenever the engine result fits
inside the requested window (offset zero and no truncation), the whole
call is a deterministic function of the multiset of reported
identifiers, independent of the order in which the engine reported
them. -/
theorem listNvmeNamespaces_sorted_and_deterministic :
    (∀ (s : ServerState) (req : ListNvmeNamespacesRequest) (env : ListEnv)
       (resp : ListNvmeNamespacesResponse),
      (listNvmeNamespaces s req env).result = .ok resp →
      resp.nvmeNamespaces.Sorted nsKeyLE) ∧
    (∀ (s : ServerState) (req : ListNvmeNamespacesRequest) (env1 env2 : ListEnv)
       (lres1 lres2 : NvdaControllerNvmeNamespaceListResult) (size : Nat),
      env1.requiredFieldsOk = true → env2.requiredFieldsOk = true →
      env1.listResult = .ok lres1 → env2.listResult = .ok lres2 →
      extractPagination req.pageSize req.pageToken s.pagination = .ok (size, 0) →
      lres1.namespaces.length ≤ size →
      lres1.namespaces.Perm lres2.namespaces →
      listNvmeNamespaces s req env1 = listNvmeNamespaces s req env2) := by
  constructor
  · intro s req env resp h
    generalize hc : listNvmeNamespaces s req env = X at h
    simp only [listNvmeNamespaces] at hc
    repeat' split at hc
    all_goals subst hc
    all_goals simp_all
    all_goals subst h
    all_goals exact List.sorted_insertionSort nsKeyLE _
  · intro s req env1 env2 lres1 lres2 size hreq1 hreq2 hlist1 hlist2 hpag hfits hperm
    have hlen2 : lres2.namespaces.length ≤ size := hperm.length_eq ▸ hfits
    have hnm1 : ¬ 0 + size < lres1.namespaces.length := by omega
    have hnm2 : ¬ 0 + size < lres2.namespaces.length := by omega
    rcases hdir : mapLookup req.parent s.subsystems with _ | subsys
    · simp [listNvmeNamespaces, hreq1, hreq2, hpag, hdir]
    · rcases hssp : subsys.spec with _ | ssp
      · simp [listNvmeNamespaces, hreq1, hreq2, hpag, hdir, hssp]
      · have hw1 : (lres1.namespaces.map mkListedNvmeNamespace).take size =
            lres1.namespaces.map mkListedNvmeNamespace :=
          List.take_of_length_le (by simpa using hfits)
        have hw2 : (lres2.namespaces.map mkListedNvmeNamespace).take size =
            lres2.namespaces.map mkListedNvmeNamespace :=
          List.take_of_length_le (by simpa using hlen2)
        have hlt1 : ¬ size < lres1.namespaces.length := by omega
        have hlt2 : ¬ size < lres2.namespaces.length := by omega
        simp [listNvmeNamespaces, hreq1, hreq2, hpag, hdir, hssp, hlist1, hlist2,
          limitPagination, hnm1, hnm2, hlt1, hlt2, hw1, hw2,
          sortNvmeNamespaces_map_eq_of_perm hperm]

/-- Witness for the amended claim C5: a concrete successful List
response is sorted, and permuting an untruncated engine result does not
change the call outcome. -/
theorem listNvmeNamespaces_sorted_and_deterministic_witness :
    (([mkListedNvmeNamespace ⟨1⟩, mkListedNvmeNamespace ⟨2⟩] :
        List NvmeNamespace).Sorted nsKeyLE) ∧
    (listNvmeNamespaces ⟨[], [("subsys1", ⟨some ⟨"nqn1"⟩⟩)], []⟩ ⟨"subsys1", 3, ""⟩
        ⟨true, .ok ⟨[⟨2⟩, ⟨1⟩]⟩, []⟩ =
      listNvmeNamespaces ⟨[], [("subsys1", ⟨some ⟨"nqn1"⟩⟩)], []⟩ ⟨"subsys1", 3, ""⟩
        ⟨true, .ok ⟨[⟨1⟩, ⟨2⟩]⟩, []⟩) :=
  ⟨listNvmeNamespaces_sorted_and_deterministic.1
      ⟨[], [("subsys1", ⟨some ⟨"nqn1"⟩⟩)], []⟩ ⟨"subsys1", 2, ""⟩
      ⟨true, .ok ⟨[⟨2⟩, ⟨1⟩]⟩, []⟩
      ⟨[mkListedNvmeNamespace ⟨1⟩, mkListedNvmeNamespace ⟨2⟩], ""⟩ (by decide),
   listNvmeNamespaces_sorted_and_deterministic.2
      ⟨[], [("subsys1", ⟨some ⟨"nqn1"⟩⟩)], []⟩ ⟨"subsys1", 3, ""⟩
      ⟨true, .ok ⟨[⟨2⟩, ⟨1⟩]⟩, []⟩ ⟨true, .ok ⟨[⟨1⟩, ⟨2⟩]⟩, []⟩
      ⟨[⟨2⟩, ⟨1⟩]⟩ ⟨[⟨1⟩, ⟨2⟩]⟩ 3 rfl rfl rfl rfl (by decide) (by decide) (by decide)⟩

/-! ### Claim C7: Stats device scan -/

/-- A registered namespace whose stored volume reference carries the
hierarchical prefix, as in the example of the claim. -/
def nsPrefixedVol : NvmeNamespace :=
  ⟨"namespaces/nv", some ⟨some ⟨"subsys1"⟩, some ⟨"volumes/v1"⟩, 1, some ⟨"u1"⟩, "", 0⟩,
   some ⟨2, 1⟩⟩

/-- A server state holding nsPrefixedVol. -/
def statePrefixedVol : ServerState :=
  ⟨[("namespaces/nv", nsPrefixedVol)], [("subsys1", ⟨some ⟨"nqn1"⟩⟩)], []⟩

/-- Counterexample to claim C7 as stated: for a namespace whose stored
volume id is volumes/v1 and an iostat response containing a device
named v1 with read count 10 and write count 3, Stats does not return
those counters; the comparison is verbatim, v1 differs from volumes/v1,
and the call fails InvalidArgument. -/
theorem nvmeNamespaceStats_prefix_counterexample :
    ((nvmeNamespaceStats statePrefixedVol ⟨⟨"namespaces/nv"⟩⟩
        ⟨true, true, .ok ⟨[⟨[⟨"v1", 10, 3⟩]⟩]⟩⟩).result =
      .error (.grpcStatus .invalidArgument "Could not find BdevName: volumes/v1")) ∧
    ((nvmeNamespaceStats statePrefixedVol ⟨⟨"namespaces/nv"⟩⟩
        ⟨true, true, .ok ⟨[⟨[⟨"v1", 10, 3⟩]⟩]⟩⟩).result ≠
      .ok ⟨⟨"namespaces/nv"⟩, ⟨10, 3⟩⟩) := by
  constructor
  · decide
  · decide

/-- Claim C7 as amended: Stats scans the per-controller, per-device
iostat result for the first device whose name equals the stored volume
reference verbatim (no prefix stripping, so a stored reference
volumes/v1 matches only a device literally named volumes/v1) and
returns that device read and write counters; the concrete example holds
for a namespace whose stored volume id is v1; if no device matches,
Stats fails InvalidArgument. -/
theorem nvmeNamespaceStats_outcomes (s : ServerState)
    (req : NvmeNamespaceStatsRequest) (env : StatsEnv) (ns : NvmeNamespace)
    (sp : NvmeNamespaceSpec) (volId : ObjectKey) (stats : NvdaControllerNvmeStatsResult)
    (hreq : env.requiredFieldsOk = true) (hname : env.nameValid = true)
    (hns : mapLookup req.namespaceId.value s.namespaces = some ns)
    (hsp : ns.spec = some sp) (hvol : sp.volumeId = some volId)
    (hstats : env.statsResult = .ok stats) :
    (∀ r, findBdevStat volId.value stats.controllers = some r →
      (nvmeNamespaceStats s req env).result =
        .ok ⟨req.namespaceId, ⟨toInt32 r.readIos, toInt32 r.writeIos⟩⟩) ∧
    (findBdevStat volId.value stats.controllers = none →
      (nvmeNamespaceStats s req env).result =
        .error (.grpcStatus .invalidArgument ("Could not find BdevName: " ++ volId.value))) := by
  constructor
  · intro r hfind
    simp [nvmeNamespaceStats, hreq, hname, hns, hsp, hvol, hstats, hfind]
  · intro hfind
    simp [nvmeNamespaceStats, hreq, hname, hns, hsp, hvol, hstats, hfind]

/-- Witness for the amended claim C7: the example with stored volume id
v1 and a device named v1 carrying counters 10 and 3. -/
theorem nvmeNamespaceStats_outcomes_witness :
    (nvmeNamespaceStats stateN1 ⟨⟨"namespaces/n1"⟩⟩
        ⟨true, true, .ok ⟨[⟨[⟨"v1", 10, 3⟩]⟩]⟩⟩).result =
      .ok ⟨⟨"namespaces/n1"⟩, ⟨10, 3⟩⟩ := by
  have h := (nvmeNamespaceStats_outcomes stateN1 ⟨⟨"namespaces/n1"⟩⟩
    ⟨true, true, .ok ⟨[⟨[⟨"v1", 10, 3⟩]⟩]⟩⟩ nsN1 specN1 ⟨"v1"⟩ ⟨[⟨[⟨"v1", 10, 3⟩]⟩]⟩
    rfl rfl (by decide) rfl rfl rfl).1 ⟨"v1", 10, 3⟩ (by decide)
  have h10 : toInt32 10 = 10 := by decide
  have h3 : toInt32 3 = 3 := by decide
  rw [h10, h3] at h
  exact h

/-! ### Claim C8: the subsystem reference after creation -/

/-- The state stateN1 with the directory entry of the referenced
subsystem removed; nothing else differs. -/
def stateN1NoDir : ServerState := ⟨[("namespaces/n1", nsN1)], [], []⟩

/-- Counterexample to claim C8 as stated: two states that differ only
in the directory entry of the referenced subsystem produce different
Delete outcomes and different Get outcomes on the same registered
namespace, so Delete and Get do depend on the directory. -/
theorem subsystem_revalidation_counterexample :
    ((deleteNvmeNamespace stateN1 ⟨"namespaces/n1", false⟩ ⟨true, true, .ok true⟩).result ≠
      (deleteNvmeNamespace stateN1NoDir ⟨"namespaces/n1", false⟩ ⟨true, true, .ok true⟩).result) ∧
    ((getNvmeNamespace stateN1 ⟨"namespaces/n1"⟩ ⟨true, true, .ok ⟨[⟨5⟩]⟩⟩).result ≠
      (getNvmeNamespace stateN1NoDir ⟨"namespaces/n1"⟩ ⟨true, true, .ok ⟨[⟨5⟩]⟩⟩).result) := by
  constructor
  · decide
  · decide

/-- Claim C8 as amended: only Stats is independent of the Subsystem
Directory — its result and engine calls are unchanged under any
replacement of the directory; Delete and Get re-resolve the stored
subsystem reference at call time and fail when the referenced
subsystem is absent from the directory. -/
theorem subsystem_reference_resolution_after_create :
    (∀ (s : ServerState) (subs2 : List (String × NvmeSubsystem))
       (req : NvmeNamespaceStatsRequest) (env : StatsEnv),
      (nvmeNamespaceStats ⟨s.namespaces, subs2, s.pagination⟩ req env).result =
        (nvmeNamespaceStats s req env).result ∧
      (nvmeNamespaceStats ⟨s.namespaces, subs2, s.pagination⟩ req env).calls =
        (nvmeNamespaceStats s req env).calls) ∧
    (∀ (s : ServerState) (req : DeleteNvmeNamespaceRequest) (env : DeleteEnv)
       (ns : NvmeNamespace) (sp : NvmeNamespaceSpec) (subId : ObjectKey),
      env.requiredFieldsOk = true → env.nameValid = true →
      mapLookup req.name s.namespaces = some ns → ns.spec = some sp →
      sp.subsystemId = some subId → mapLookup subId.value s.subsystems = none →
      deleteNvmeNamespace s req env =
        ⟨.error (.internalError ("unable to find subsystem " ++ subId.value)), s, []⟩) ∧
    (∀ (s : ServerState) (req : GetNvmeNamespaceRequest) (env : GetEnv)
       (ns : NvmeNamespace) (sp : NvmeNamespaceSpec) (subId : ObjectKey),
      env.requiredFieldsOk = true → env.nameValid = true →
      mapLookup req.name s.namespaces = some ns → ns.spec = some sp →
      sp.subsystemId = some subId → mapLookup subId.value s.subsystems = none →
      getNvmeNamespace s req env =
        ⟨.error (.grpcStatus .notFound ("unable to find key " ++ subId.value)), s, []⟩) := by
  refine ⟨?_, ?_, ?_⟩
  · intro s subs2 req env
    constructor <;>
      · simp only [nvmeNamespaceStats]
        repeat' split
        all_goals rfl
  · intro s req env ns sp subId hreq hname hns hsp hsub hdir
    simp [deleteNvmeNamespace, hreq, hname, hns, hsp, hsub, hdir]
  · intro s req env ns sp subId hreq hname hns hsp hsub hdir
    simp [getNvmeNamespace, hreq, hname, hns, hsp, hsub, hdir]

/-- Witness for the amended claim C8 at concrete inputs. -/
theorem subsystem_reference_resolution_after_create_witness :
    ((nvmeNamespaceStats ⟨stateN1.namespaces, [], stateN1.pagination⟩ ⟨⟨"namespaces/n1"⟩⟩
        ⟨true, true, .ok ⟨[⟨[⟨"v1", 10, 3⟩]⟩]⟩⟩).result =
      (nvmeNamespaceStats stateN1 ⟨⟨"namespaces/n1"⟩⟩
        ⟨true, true, .ok ⟨[⟨[⟨"v1", 10, 3⟩]⟩]⟩⟩).result) ∧
    (deleteNvmeNamespace stateN1NoDir ⟨"namespaces/n1", false⟩ ⟨true, true, .ok true⟩ =
      ⟨.error (.internalError "unable to find subsystem subsys1"), stateN1NoDir, []⟩) ∧
    (getNvmeNamespace stateN1NoDir ⟨"namespaces/n1"⟩ ⟨true, true, .ok ⟨[⟨5⟩]⟩⟩ =
      ⟨.error (.grpcStatus .notFound "unable to find key subsys1"), stateN1NoDir, []⟩) :=
  ⟨(subsystem_reference_resolution_after_create.1 stateN1 [] ⟨⟨"namespaces/n1"⟩⟩
      ⟨true, true, .ok ⟨[⟨[⟨"v1", 10, 3⟩]⟩]⟩⟩).1,
   subsystem_reference_resolution_after_create.2.1 stateN1NoDir ⟨"namespaces/n1", false⟩
      ⟨true, true, .ok true⟩ nsN1 specN1 ⟨"subsys1"⟩ rfl rfl (by decide) rfl rfl rfl,
   subsystem_reference_resolution_after_create.2.2 stateN1NoDir ⟨"namespaces/n1"⟩
      ⟨true, true, .ok ⟨[⟨5⟩]⟩⟩ nsN1 specN1 ⟨"subsys1"⟩ rfl rfl (by decide) rfl rfl rfl⟩

/-! ### Claim C10: the registry is keyed consistently by resource name -/

/-- Shape of the registry after Create: unchanged, or one binding
inserted under the resolved name, whose stored value carries that very
name, itself of the hierarchical form. -/
theorem createNvmeNamespace_namespaces_shape (s : ServerState)
    (req : CreateNvmeNamespaceRequest) (env : CreateEnv) :
    (createNvmeNamespace s req env).state.namespaces = s.namespaces ∨
    ∃ (nm : String) (resp : NvmeNamespace),
      (createNvmeNamespace s req env).state.namespaces = mapInsert nm resp s.namespaces ∧
      resp.name = nm ∧ ∃ id, nm = resourceIDToVolumeName id := by
  generalize hc : createNvmeNamespace s req env = X
  simp only [createNvmeNamespace] at hc
  repeat' split at hc
  all_goals subst hc
  all_goals first
    | exact Or.inl rfl
    | exact Or.inr ⟨_, _, rfl, rfl, resolveResourceID req env, rfl⟩

/-- Shape of the registry after Delete: unchanged or one binding erased. -/
theorem deleteNvmeNamespace_namespaces_shape (s : ServerState)
    (req : DeleteNvmeNamespaceRequest) (env : DeleteEnv) :
    (deleteNvmeNamespace s req env).state.namespaces = s.namespaces ∨
    ∃ nm, (deleteNvmeNamespace s req env).state.namespaces = mapErase nm s.namespaces := by
  generalize hc : deleteNvmeNamespace s req env = X
  simp only [deleteNvmeNamespace] at hc
  repeat' split at hc
  all_goals subst hc
  all_goals first
    | exact Or.inl rfl
    | exact Or.inr ⟨_, rfl⟩

/-- Update never mutates the server state. -/
theorem updateNvmeNamespace_state_eq (s : ServerState)
    (req : UpdateNvmeNamespaceRequest) (env : UpdateEnv) :
    (updateNvmeNamespace s req env).state = s := by
  generalize hc : updateNvmeNamespace s req env = X
  simp only [updateNvmeNamespace] at hc
  repeat' split at hc
  all_goals subst hc
  all_goals rfl

/-- Get never mutates the server state. -/
theorem getNvmeNamespace_state_eq (s : ServerState)
    (req : GetNvmeNamespaceRequest) (env : GetEnv) :
    (getNvmeNamespace s req env).state = s := by
  generalize hc : getNvmeNamespace s req env = X
  simp only [getNvmeNamespace] at hc
  repeat' split at hc
  all_goals subst hc
  all_goals rfl

/-- Stats never mutates the server state. -/
theorem nvmeNamespaceStats_state_eq (s : ServerState)
    (req : NvmeNamespaceStatsRequest) (env : StatsEnv) :
    (nvmeNamespaceStats s req env).state = s := by
  generalize hc : nvmeNamespaceStats s req env = X
  simp only [nvmeNamespaceStats] at hc
  repeat' split at hc
  all_goals subst hc
  all_goals rfl

/-- List never mutates the registry. -/
theorem listNvmeNamespaces_namespaces_eq (s : ServerState)
    (req : ListNvmeNamespacesRequest) (env : ListEnv) :
    (listNvmeNamespaces s req env).state.namespaces = s.namespaces := by
  generalize hc : listNvmeNamespaces s req env = X
  simp only [listNvmeNamespaces] at hc
  repeat' split at hc
  all_goals subst hc
  all_goals rfl

/-- The registry invariant: every binding stores a namespace carrying
its own key as name, and the key has the resolved hierarchical form. -/
def regInv (s : ServerState) : Prop :=
  ∀ p ∈ s.namespaces, p.2.name = p.1 ∧ ∃ id, p.1 = resourceIDToVolumeName id

theorem regInv_applyOp {s : ServerState} (h : regInv s) (op : Op) :
    regInv (applyOp s op) := by
  cases op with
  | create req env =>
    rcases createNvmeNamespace_namespaces_shape s req env with hsh | ⟨nm, resp, hsh, hnm, id, hid⟩
    · intro p hp
      dsimp only [applyOp] at hp
      rw [hsh] at hp
      exact h p hp
    · intro p hp
      dsimp only [applyOp] at hp
      rw [hsh] at hp
      rcases mem_mapInsert hp with hp | hp
      · subst hp
        exact ⟨hnm, id, hid⟩
      · exact h p hp
  | delete req env =>
    rcases deleteNvmeNamespace_namespaces_shape s req env with hsh | ⟨nm, hsh⟩
    · intro p hp
      dsimp only [applyOp] at hp
      rw [hsh] at hp
      exact h p hp
    · intro p hp
      dsimp only [applyOp] at hp
      rw [hsh] at hp
      exact h p (mem_mapErase hp)
  | update req env =>
    intro p hp
    dsimp only [applyOp] at hp
    rw [updateNvmeNamespace_state_eq] at hp
    exact h p hp
  | list req env =>
    intro p hp
    dsimp only [applyOp] at hp
    rw [listNvmeNamespaces_namespaces_eq] at hp
    exact h p hp
  | get req env =>
    intro p hp
    dsimp only [applyOp] at hp
    rw [getNvmeNamespace_state_eq] at hp
    exact h p hp
  | stats req env =>
    intro p hp
    dsimp only [applyOp] at hp
    rw [nvmeNamespaceStats_state_eq] at hp
    exact h p hp

theorem regInv_runOps {s : ServerState} (h : regInv s) (ops : List Op) :
    regInv (runOps s ops) := by
  induction ops generalizing s with
  | nil => exact h
  | cons op rest ih => exact ih (regInv_applyOp h op)

/-- Claim C10: from any state with an empty registry, after any
sequence of the six operations every registry binding stores a
namespace whose name equals its key, the key being of the hierarchical
form produced from a resolved identifier; moreover Create is the only
operation that can add a binding and Delete the only one that can
remove a binding. -/
theorem registry_keyed_by_name :
    (∀ (s0 : ServerState) (ops : List Op) (k : String) (ns : NvmeNamespace),
      s0.namespaces = [] →
      mapLookup k (runOps s0 ops).namespaces = some ns →
      ns.name = k ∧ ∃ id, k = resourceIDToVolumeName id) ∧
    (∀ (s : ServerState) (op : Op) (k : String),
      mapLookup k s.namespaces = none →
      (mapLookup k (applyOp s op).namespaces).isSome = true →
      isCreateOp op = true) ∧
    (∀ (s : ServerState) (op : Op) (k : String),
      (mapLookup k s.namespaces).isSome = true →
      mapLookup k (applyOp s op).namespaces = none →
      isDeleteOp op = true) := by
  refine ⟨?_, ?_, ?_⟩
  · intro s0 ops k ns h0 hlook
    have hinv : regInv s0 := by
      intro p hp
      rw [h0] at hp
      simp at hp
    have := regInv_runOps hinv ops (k, ns) (mapLookup_mem hlook)
    exact ⟨this.1, this.2⟩
  · intro s op k hnone hsome
    cases op with
    | create req env => rfl
    | delete req env =>
      exfalso
      rcases deleteNvmeNamespace_namespaces_shape s req env with hsh | ⟨nm, hsh⟩ <;>
        dsimp only [applyOp] at hsome <;> rw [hsh] at hsome
      · rw [hnone] at hsome
        simp at hsome
      · rw [mapLookup_mapErase_none hnone] at hsome
        simp at hsome
    | update req env =>
      exfalso
      dsimp only [applyOp] at hsome
      rw [updateNvmeNamespace_state_eq, hnone] at hsome
      simp at hsome
    | list req env =>
      exfalso
      dsimp only [applyOp] at hsome
      rw [listNvmeNamespaces_namespaces_eq, hnone] at hsome
      simp at hsome
    | get req env =>
      exfalso
      dsimp only [applyOp] at hsome
      rw [getNvmeNamespace_state_eq, hnone] at hsome
      simp at hsome
    | stats req env =>
      exfalso
      dsimp only [applyOp] at hsome
      rw [nvmeNamespaceStats_state_eq, hnone] at hsome
      simp at hsome
  · intro s op k hsome hnone2
    cases op with
    | delete req env => rfl
    | create req env =>
      exfalso
      rcases createNvmeNamespace_namespaces_shape s req env with hsh | ⟨nm, resp, hsh, _, _⟩ <;>
        dsimp only [applyOp] at hnone2 <;> rw [hsh] at hnone2
      · rw [hnone2] at hsome
        simp at hsome
      · rw [mapLookup_mapInsert] at hnone2
        split at hnone2
        · simp at hnone2
        · rw [hnone2] at hsome
          simp at hsome
    | update req env =>
      exfalso
      dsimp only [applyOp] at hnone2
      rw [updateNvmeNamespace_state_eq] at hnone2
      rw [hnone2] at hsome
      simp at hsome
    | list req env =>
      exfalso
      dsimp only [applyOp] at hnone2
      rw [listNvmeNamespaces_namespaces_eq] at hnone2
      rw [hnone2] at hsome
      simp at hsome
    | get req env =>
      exfalso
      dsimp only [applyOp] at hnone2
      rw [getNvmeNamespace_state_eq] at hnone2
      rw [hnone2] at hsome
      simp at hsome
    | stats req env =>
      exfalso
      dsimp only [applyOp] at hnone2
      rw [nvmeNamespaceStats_state_eq] at hnone2
      rw [hnone2] at hsome
      simp at hsome

/-- A state holding only a subsystem directory entry, with an empty
registry. -/
def stateDirOnly : ServerState := ⟨[], [("subsys1", ⟨some ⟨"nqn1"⟩⟩)], []⟩

/-- A concrete successful Create call as one trace step. -/
def opCreateW : Op := .create ⟨"w1", ⟨"", some specN1, none⟩⟩ ⟨true, true, "gen", .ok true⟩

/-- A concrete successful Delete call as one trace step. -/
def opDeleteW : Op := .delete ⟨"namespaces/n1", false⟩ ⟨true, true, .ok true⟩

/-- Witness for claim C10 at concrete inputs: after one successful
Create from an empty registry the stored binding carries its key as
name and the key has the hierarchical form; the adding step is a
Create and the removing step is a Delete. -/
theorem registry_keyed_by_name_witness :
    ((⟨"namespaces/w1", some specN1, some ⟨2, 1⟩⟩ : NvmeNamespace).name = "namespaces/w1" ∧
      ∃ id, "namespaces/w1" = resourceIDToVolumeName id) ∧
    isCreateOp opCreateW = true ∧ isDeleteOp opDeleteW = true :=
  ⟨registry_keyed_by_name.1 stateDirOnly [opCreateW] "namespaces/w1"
      ⟨"namespaces/w1", some specN1, some ⟨2, 1⟩⟩ rfl (by decide),
   registry_keyed_by_name.2.1 stateDirOnly opCreateW "namespaces/w1" (by decide) (by decide),
   registry_keyed_by_name.2.2 stateN1 opDeleteW "namespaces/n1" (by decide) (by decide)⟩

end Frontend
